import Mathlib

/-!
Verification development for a Binance USD-M futures trading bot
(modules `bot/validators.py`, `bot/client.py`, `bot/orders.py`).

The Python code is shallowly embedded:
* Python `float` values are modelled by `PyFloat` (exact rationals plus
  the special values nan, inf and -inf, with IEEE comparison semantics);
* Python strings are Lean `String`s, and the ASCII fragment of the string
  methods `strip`, `upper`, `isalnum`, `replace` used by the source is
  modelled over character code points;
* fallible Python functions return `Except`; raised exceptions become
  error values.
-/

/-! ### Characters and the ASCII fragment of the Python string methods -/

/-- Code-point test for an ASCII decimal digit, letter or underscore test
    matching the character class accepted by `validate_symbol`. -/
def isAsciiAlnum (c : Char) : Bool :=
  (48 ≤ c.toNat && c.toNat ≤ 57) ||
  (65 ≤ c.toNat && c.toNat ≤ 90) ||
  (97 ≤ c.toNat && c.toNat ≤ 122)

/-- Whitespace stripped by the Python `str.strip` method (ASCII fragment). -/
def isPyWS (c : Char) : Bool :=
  c.toNat = 32 || c.toNat = 9 || c.toNat = 10 || c.toNat = 11 ||
  c.toNat = 12 || c.toNat = 13

/-- ASCII fragment of the Python `str.upper` character map: maps a-z to
    A-Z and fixes everything else. The Python method also uppercases
    non-ASCII letters (accented letters and so on), where this model is
    the identity; exact agreement holds on ASCII characters. -/
def pyUpperChar (c : Char) : Char :=
  if 97 ≤ c.toNat && c.toNat ≤ 122 then Char.ofNat (c.toNat - 32) else c

/-- Model of the Python `str.upper` method. -/
def pyUpper (s : String) : String :=
  ⟨s.data.map pyUpperChar⟩

/-- Model of the Python `str.strip` method: remove leading and trailing
    whitespace. Python also strips non-ASCII Unicode whitespace; the model
    agrees with it exactly on ASCII strings. -/
def pyStrip (s : String) : String :=
  ⟨((s.data.dropWhile isPyWS).reverse.dropWhile isPyWS).reverse⟩

/-- Model of the Python expression `s.replace("_", "")`: removing a
    single-character substring is a character filter. -/
def pyDropUnderscores (s : String) : String :=
  ⟨s.data.filter (fun c => c ≠ '_')⟩

/-- Model of the Python `str.isalnum` method on the ASCII fragment:
    nonempty and every character ASCII alphanumeric (the Python method
    returns `False` on the empty string). The Python method is
    Unicode-aware: it also accepts non-ASCII alphanumerics, for example
    accented letters and numeric signs such as the vulgar-fraction half, so
    this model is exact only on ASCII strings and every rejection
    statement built on it is scoped to ASCII inputs. -/
def pyIsAlnum (s : String) : Bool :=
  !s.data.isEmpty && s.data.all isAsciiAlnum

/-! ### Python float values -/

/-- A Python `float`, idealized: finite values are exact rationals; the
    special values `nan`, `inf` and `-inf` are explicit. -/
inductive PyFloat where
  | finite (q : ℚ)
  | nan
  | inf
  | ninf
deriving DecidableEq, Repr

/-- IEEE-style `x <= y` on Python floats: any comparison with `nan` is
    false. This is the comparison used by `qty <= 0` in the validators. -/
def pyLe : PyFloat → PyFloat → Bool
  | .finite a, .finite b => a ≤ b
  | .nan, _ => false
  | _, .nan => false
  | .ninf, _ => true
  | _, .inf => true
  | .inf, _ => false
  | .finite _, .ninf => false

/-- A strictly positive finite float — the only values the spec allows to be
    stringified into wire parameters for quantity, price and stop price. -/
def isStrictlyPositiveFinite : PyFloat → Bool
  | .finite q => 0 < q
  | _ => false

/-! ### Python values handed to the validators -/

/-- The Python values relevant to the validator and order-management entry
    points: strings, floats, ints and `None`. -/
inductive PyVal where
  | str (s : String)
  | num (x : PyFloat)
  | int (n : Int)
  | none
deriving DecidableEq, Repr

/-! ### The Python float constructor (string parsing) -/

/-- Parse a run of ASCII digits possibly separated by single underscores
    (Python numeric literals allow `1_000`); returns the digits without
    underscores. An underscore must sit between two digits. -/
def parseDigitsU : List Char → Option (List Nat)
  | [] => Option.none
  | c :: rest => go c rest
where
  /-- Consume `c` then `rest`; `c` must be a digit or an underscore that is
      followed by a digit and preceded by a digit (enforced by call sites). -/
  go (c : Char) (rest : List Char) : Option (List Nat) :=
    if 48 ≤ c.toNat && c.toNat ≤ 57 then
      match rest with
      | [] => some [c.toNat - 48]
      | d :: rest2 =>
        if d = '_' then
          match rest2 with
          | [] => Option.none
          | e :: rest3 =>
            match go e rest3 with
            | some ds => if 48 ≤ e.toNat && e.toNat ≤ 57 then some ((c.toNat - 48) :: ds) else Option.none
            | Option.none => Option.none
        else
          match go d rest2 with
          | some ds => some ((c.toNat - 48) :: ds)
          | Option.none => Option.none
    else Option.none

/-- Natural number denoted by a list of decimal digit values. -/
def digitsToNat (ds : List Nat) : Nat :=
  ds.foldl (fun a d => a * 10 + d) 0

/-- Case-insensitive comparison of an ASCII char list against a lowercase
    pattern. -/
def matchLowerWord (l : List Char) (w : List Char) : Bool :=
  (l.map pyUpperChar) = (w.map pyUpperChar)

/-- Split a char list at the first occurrence of `sep`, if any. -/
def splitAtChar (sep : Char) (l : List Char) : Option (List Char × List Char) :=
  match l with
  | [] => Option.none
  | c :: rest =>
    if c = sep then some ([], rest)
    else match splitAtChar sep rest with
      | some (a, b) => some (c :: a, b)
      | Option.none => Option.none

/-- The rational `10 ^ k`, built with kernel-reducible operations. -/
def ratPow10 (k : Nat) : ℚ := mkRat ((10 : Nat) ^ k : Nat) 1

/-- Exact rational multiplication via `mkRat` (the Batteries `Rat.mul` is
    marked irreducible, which blocks kernel evaluation of concrete
    instances; this definition computes the same rational). -/
def ratMul (a b : ℚ) : ℚ := mkRat (a.num * b.num) (a.den * b.den)

/-- Exact rational addition via `mkRat`. -/
def ratAdd (a b : ℚ) : ℚ := mkRat (a.num * b.den + b.num * a.den) (a.den * b.den)

/-- Exact rational division via `mkRat` (zero divisor yields zero, a case
    the float parser never reaches since it only divides by powers of ten). -/
def ratDiv (a b : ℚ) : ℚ :=
  if b.num < 0 then mkRat (-(a.num * b.den)) (a.den * b.num.natAbs)
  else mkRat (a.num * b.den) (a.den * b.num.natAbs)

/-- Exact rational negation via `mkRat`. -/
def ratNeg (a : ℚ) : ℚ := mkRat (-a.num) a.den

/-- Parse the digits-and-dot part of a Python float literal (no sign, no
    exponent): `digits`, `digits.digits`, `digits.` or `.digits`.
    Arithmetic uses the core `Rat` operations so that concrete instances
    reduce in the kernel. -/
def parseDecimalBody (l : List Char) : Option ℚ :=
  match splitAtChar '.' l with
  | Option.none =>
    match parseDigitsU l with
    | some ds => some (mkRat (digitsToNat ds) 1)
    | Option.none => Option.none
  | some (ip, fp) =>
    match ip, fp with
    | [], [] => Option.none
    | [], _ =>
      match parseDigitsU fp with
      | some ds => some (ratDiv (mkRat (digitsToNat ds) 1) (ratPow10 ds.length))
      | Option.none => Option.none
    | _, [] =>
      match parseDigitsU ip with
      | some ds => some (mkRat (digitsToNat ds) 1)
      | Option.none => Option.none
    | _, _ =>
      match parseDigitsU ip, parseDigitsU fp with
      | some dsi, some dsf =>
        some (ratAdd (mkRat (digitsToNat dsi) 1)
          (ratDiv (mkRat (digitsToNat dsf) 1) (ratPow10 dsf.length)))
      | _, _ => Option.none

/-- Parse an optional exponent suffix `e<sign?><digits>`; returns the
    mantissa characters and the exponent. -/
def splitExponent (l : List Char) : Option (List Char × Int) :=
  match splitAtChar 'e' (l.map (fun c => if c = 'E' then 'e' else c)) with
  | Option.none => some (l, 0)
  | some (mant, ex) =>
    let mant0 := l.take mant.length
    match ex with
    | '+' :: ds =>
      match parseDigitsU ds with
      | some dv => some (mant0, (digitsToNat dv : Int))
      | Option.none => Option.none
    | '-' :: ds =>
      match parseDigitsU ds with
      | some dv => some (mant0, -(digitsToNat dv : Int))
      | Option.none => Option.none
    | ds =>
      match parseDigitsU ds with
      | some dv => some (mant0, (digitsToNat dv : Int))
      | Option.none => Option.none

/-- Scale a rational by an integer power of ten. -/
def scalePow10 (q : ℚ) (e : Int) : ℚ :=
  if 0 ≤ e then ratMul q (ratPow10 e.toNat) else ratDiv q (ratPow10 (-e).toNat)

/-- Model of the Python builtin `float(str)`: strip whitespace, optional
    sign, then `nan`, `inf`, `infinity` (case-insensitive) or a decimal
    literal with optional exponent. Finite results are exact rationals. -/
def pyParseFloat (s : String) : Option PyFloat :=
  let t := (pyStrip s).data
  let (neg, body) :=
    match t with
    | '+' :: rest => (false, rest)
    | '-' :: rest => (true, rest)
    | rest => (false, rest)
  if matchLowerWord body ['n', 'a', 'n'] then some .nan
  else if matchLowerWord body ['i', 'n', 'f'] ||
      matchLowerWord body ['i', 'n', 'f', 'i', 'n', 'i', 't', 'y'] then
    some (if neg then .ninf else .inf)
  else
    match splitExponent body with
    | Option.none => Option.none
    | some (mant, e) =>
      match parseDecimalBody mant with
      | Option.none => Option.none
      | some q => some (.finite (if neg then ratNeg (scalePow10 q e) else scalePow10 q e))

/-- Model of the Python builtin `float(x)` on the embedded values: strings
    are parsed, floats pass through, ints are exact, `None` raises
    `TypeError` (returned as `Option.none`, since the validators catch
    `TypeError` and `ValueError` alike). -/
def pyFloatOf : PyVal → Option PyFloat
  | .str s => pyParseFloat s
  | .num x => some x
  | .int n => some (.finite (mkRat n 1))
  | .none => Option.none

/-! ### Validator error and notice types

The source raises a single `ValidationError` carrying a message string;
each constructor below stands for one distinct message of
`bot/validators.py` (the doc comments quote the message). -/

/-- One constructor per distinct `ValidationError` message raised by
    `bot/validators.py` and `bot/orders.py`. -/
inductive VErr where
  /-- "Symbol is required and must be a non-empty string." -/
  | symbolRequired
  /-- "Symbol ... is too short. Example: BTCUSDT" -/
  | symbolTooShort (sym : String)
  /-- "Symbol ... contains invalid characters. Only alphanumeric characters are allowed." -/
  | symbolInvalidChars (sym : String)
  /-- "Order side is required. Please enter BUY or SELL." -/
  | sideRequired
  /-- "Invalid order side ... Must be one of: BUY, SELL" -/
  | sideInvalid (side : String)
  /-- "Order type is required." -/
  | orderTypeRequired
  /-- "Invalid order type ... Must be one of: MARKET, LIMIT, STOP_LIMIT" -/
  | orderTypeInvalid (t : String)
  /-- "Invalid quantity ... Please enter a number greater than 0." -/
  | quantityInvalid (v : PyVal)
  /-- "Quantity must be greater than 0, got: ..." -/
  | quantityNotPositive (q : PyFloat)
  /-- "Invalid price ... Please enter a number greater than 0." -/
  | priceInvalid (v : PyVal)
  /-- "Price must be greater than 0, got: ..." -/
  | priceNotPositive (p : PyFloat)
  /-- "Invalid stop price ... Please enter a number greater than 0." -/
  | stopPriceInvalid (v : PyVal)
  /-- "Stop price must be greater than 0, got: ..." -/
  | stopPriceNotPositive (p : PyFloat)
  /-- "Price is required for LIMIT orders. Use MARKET type for market-price orders." -/
  | priceRequiredForLimit
  /-- "Limit price is required for STOP_LIMIT orders." (names the limit price) -/
  | limitPriceRequiredForStopLimit
  /-- "Stop (trigger) price is required for STOP_LIMIT orders." (names the stop price) -/
  | stopPriceRequiredForStopLimit
  /-- "Invalid order ID ... Must be a number." (raised by `bot/orders.py` `cancel_order`) -/
  | invalidOrderId (v : PyVal)
deriving DecidableEq, Repr

/-- Non-fatal notices emitted through the logger by the validators. -/
inductive LogNotice where
  /-- "Price parameter ignored for MARKET orders. The order will execute at
      the current market price." (logged at warning level, not raised) -/
  | marketPriceIgnored
deriving DecidableEq, Repr

/-! ### The validators (`bot/validators.py`) -/

/-- `validate_symbol` (validators.py lines 23 to 51): non-empty string,
    strip and uppercase, length at least 2, and alphanumeric after removing
    underscores. -/
def validate_symbol (v : PyVal) : Except VErr String :=
  match v with
  | .str s =>
    if s = "" then .error .symbolRequired
    else
      let t := pyUpper (pyStrip s)
      if t.length < 2 then .error (.symbolTooShort t)
      else if !(pyIsAlnum (pyDropUnderscores t)) then .error (.symbolInvalidChars t)
      else .ok t
  | _ => .error .symbolRequired

/-- `validate_side` (validators.py lines 54 to 78). -/
def validate_side (v : PyVal) : Except VErr String :=
  match v with
  | .str s =>
    if s = "" then .error .sideRequired
    else
      let t := pyUpper (pyStrip s)
      if t = "BUY" || t = "SELL" then .ok t else .error (.sideInvalid t)
  | _ => .error .sideRequired

/-- `validate_order_type` (validators.py lines 81 to 106). -/
def validate_order_type (v : PyVal) : Except VErr String :=
  match v with
  | .str s =>
    if s = "" then .error .orderTypeRequired
    else
      let t := pyUpper (pyStrip s)
      if t = "MARKET" || t = "LIMIT" || t = "STOP_LIMIT" then .ok t
      else .error (.orderTypeInvalid t)
  | _ => .error .orderTypeRequired

/-- `validate_quantity` (validators.py lines 109 to 135): `float(quantity)`
    then reject when `qty <= 0`. Note that `nan <= 0` and `inf <= 0` are
    both false in Python, so those values pass the check. -/
def validate_quantity (v : PyVal) : Except VErr PyFloat :=
  match pyFloatOf v with
  | Option.none => .error (.quantityInvalid v)
  | some q => if pyLe q (.finite 0) then .error (.quantityNotPositive q) else .ok q

/-- `validate_price` (validators.py lines 138 to 164). -/
def validate_price (v : PyVal) : Except VErr PyFloat :=
  match pyFloatOf v with
  | Option.none => .error (.priceInvalid v)
  | some p => if pyLe p (.finite 0) then .error (.priceNotPositive p) else .ok p

/-- `validate_stop_price` (validators.py lines 167 to 193). -/
def validate_stop_price (v : PyVal) : Except VErr PyFloat :=
  match pyFloatOf v with
  | Option.none => .error (.stopPriceInvalid v)
  | some p => if pyLe p (.finite 0) then .error (.stopPriceNotPositive p) else .ok p

/-- The normalized validation output dictionary of `validate_order_params`:
    `price` and `stop_price` are `Option.none` exactly when the source dict
    lacks the corresponding key. -/
structure ValidatedParams where
  symbol : String
  side : String
  order_type : String
  quantity : PyFloat
  price : Option PyFloat := Option.none
  stop_price : Option PyFloat := Option.none
deriving DecidableEq, Repr

/-- `validate_order_params` (validators.py lines 196 to 264): the five field
    validators, then per-type completeness. The returned list collects the
    non-fatal logger notices emitted on the way (the source logs, it never
    raises, for a price supplied with a MARKET order). -/
def validate_order_params (symbol side order_type quantity : PyVal)
    (price : PyVal := .none) (stop_price : PyVal := .none) :
    Except VErr (ValidatedParams × List LogNotice) := do
  let sym ← validate_symbol symbol
  let sd ← validate_side side
  let ot ← validate_order_type order_type
  let qty ← validate_quantity quantity
  let base : ValidatedParams := { symbol := sym, side := sd, order_type := ot, quantity := qty }
  if ot = "LIMIT" then
    match price with
    | .none => .error .priceRequiredForLimit
    | _ => do
      let p ← validate_price price
      pure ({ base with price := some p }, [])
  else if ot = "STOP_LIMIT" then
    match price with
    | .none => .error .limitPriceRequiredForStopLimit
    | _ =>
      match stop_price with
      | .none => .error .stopPriceRequiredForStopLimit
      | _ => do
        let p ← validate_price price
        let sp ← validate_stop_price stop_price
        pure ({ base with price := some p, stop_price := some sp }, [])
  else
    match price with
    | .none => pure (base, [])
    | _ => pure (base, [LogNotice.marketPriceIgnored])

/-! ### Stringification of floats (Python `str(float)`)

Wire parameters are built with `str(value)`. For the decimal-valued floats
produced by the validators, Python prints the shortest decimal form, with a
trailing `.0` for integral values. -/

/-- Decimal rendering of a Python float as produced by `str`: shortest
    positional decimal form (scientific notation for very small or very
    large magnitudes is outside the modelled fragment; the scan bound 400
    covers every decimal-valued rational the validators can produce). -/
def pyFloatStr : PyFloat → String
  | .nan => "nan"
  | .inf => "inf"
  | .ninf => "-inf"
  | .finite q =>
    match (List.range 400).find? (fun k => (ratMul q (ratPow10 k)).den = 1) with
    | Option.none => ""
    | some k =>
      let m : Int := (ratMul q (ratPow10 k)).num
      let sgn := if m < 0 then "-" else ""
      let ds := Nat.repr m.natAbs
      let padded :=
        if ds.length < k + 1 then String.mk (List.replicate (k + 1 - ds.length) '0') ++ ds
        else ds
      if k = 0 then sgn ++ padded ++ ".0"
      else sgn ++ padded.take (padded.length - k) ++ "." ++ padded.drop (padded.length - k)

/-- Values that can appear in the keyword arguments of
    `BinanceFuturesClient.place_order`: strings, floats, or `None`
    (`None`-valued optional fields are omitted from the wire parameters). -/
inductive PyArg where
  | sarg (s : String)
  | farg (x : PyFloat)
  | none
deriving DecidableEq, Repr

/-- Python `str(value)` on a keyword-argument value. -/
def pyArgStr : PyArg → String
  | .sarg s => s
  | .farg x => pyFloatStr x
  | .none => "None"

/-! ### UTF-8, percent-encoding and `urlencode` -/

/-- UTF-8 encoding of one character, as byte values. -/
def utf8Char (c : Char) : List Nat :=
  let n := c.toNat
  if n < 128 then [n]
  else if n < 2048 then [192 + n / 64, 128 + n % 64]
  else if n < 65536 then [224 + n / 4096, 128 + n / 64 % 64, 128 + n % 64]
  else [240 + n / 262144, 128 + n / 4096 % 64, 128 + n / 64 % 64, 128 + n % 64]

/-- UTF-8 encoding of a string, as byte values (Python `s.encode("utf-8")`). -/
def utf8Bytes (s : String) : List Nat :=
  (s.data.map utf8Char).flatten

/-- Lowercase hex digit for a value below 16. -/
def hexDigit (n : Nat) : Char :=
  if n < 10 then Char.ofNat (48 + n) else Char.ofNat (87 + n)

/-- Uppercase hex digit for a value below 16 (percent-encoding uses
    uppercase). -/
def hexDigitUpper (n : Nat) : Char :=
  if n < 10 then Char.ofNat (48 + n) else Char.ofNat (55 + n)

/-- Lowercase hex string of a byte list (Python `hexdigest`). -/
def hexStr (bs : List Nat) : String :=
  ⟨(bs.map (fun b => [hexDigit (b / 16), hexDigit (b % 16)])).flatten⟩

/-- Bytes never percent-encoded by Python `urllib.parse.quote_plus`:
    ASCII letters, digits, and the marks `_ . - ~`. -/
def quoteSafeByte (b : Nat) : Bool :=
  (48 ≤ b && b ≤ 57) || (65 ≤ b && b ≤ 90) || (97 ≤ b && b ≤ 122) ||
  b = 95 || b = 46 || b = 45 || b = 126

/-- Python `urllib.parse.quote_plus`: UTF-8 encode, keep safe bytes, map
    space to `+`, percent-encode the rest with uppercase hex. -/
def quotePlus (s : String) : String :=
  ⟨((utf8Bytes s).map (fun b =>
      if b = 32 then ['+']
      else if quoteSafeByte b then [Char.ofNat b]
      else ['%', hexDigitUpper (b / 16), hexDigitUpper (b % 16)])).flatten⟩

/-- Python `urllib.parse.urlencode` on an insertion-ordered parameter map
    with string values: `k1=v1&k2=v2&...` with `quote_plus` applied to keys
    and values. -/
def urlencode (params : List (String × String)) : String :=
  String.intercalate "&" (params.map (fun kv => quotePlus kv.1 ++ "=" ++ quotePlus kv.2))

/-! ### SHA-256 and HMAC-SHA256

Executable embedding of the digest used by `hashlib.sha256` and
`hmac.new(..., hashlib.sha256)`. Words are `Nat` reduced mod `2 ^ 32`. -/

/-- Truncate to a 32-bit word. -/
def w32 (x : Nat) : Nat := x % 4294967296

/-- Right rotation of a 32-bit word. -/
def rotr32 (n x : Nat) : Nat :=
  w32 ((x >>> n) ||| (x <<< (32 - n)))

/-- Bitwise complement of a 32-bit word. -/
def not32 (x : Nat) : Nat := 4294967295 ^^^ x

/-- SHA-256 round constants: fractional parts of the cube roots of the
    first 64 primes. -/
def sha256K : List Nat :=
  [1116352408, 1899447441, 3049323471, 3921009573, 961987163, 1508970993, 2453635748, 2870763221,
   3624381080, 310598401, 607225278, 1426881987, 1925078388, 2162078206, 2614888103, 3248222580,
   3835390401, 4022224774, 264347078, 604807628, 770255983, 1249150122, 1555081692, 1996064986,
   2554220882, 2821834349, 2952996808, 3210313671, 3336571891, 3584528711, 113926993, 338241895,
   666307205, 773529912, 1294757372, 1396182291, 1695183700, 1986661051, 2177026350, 2456956037,
   2730485921, 2820302411, 3259730800, 3345764771, 3516065817, 3600352804, 4094571909, 275423344,
   430227734, 506948616, 659060556, 883997877, 958139571, 1322822218, 1537002063, 1747873779,
   1955562222, 2024104815, 2227730452, 2361852424, 2428436474, 2756734187, 3204031479, 3329325298]

/-- SHA-256 initial hash state: fractional parts of the square roots of
    the first 8 primes. -/
def sha256H0 : List Nat :=
  [1779033703, 3144134277, 1013904242, 2773480762, 1359893119, 2600822924, 528734635, 1541459225]

/-- Big-endian 4-byte words from a byte list. -/
def bytesToWords : List Nat → List Nat
  | b0 :: b1 :: b2 :: b3 :: rest => (b0 * 16777216 + b1 * 65536 + b2 * 256 + b3) :: bytesToWords rest
  | _ => []

/-- Big-endian byte expansion of a 32-bit word. -/
def wordToBytes (x : Nat) : List Nat :=
  [x / 16777216 % 256, x / 65536 % 256, x / 256 % 256, x % 256]

/-- The 64-entry SHA-256 message schedule of one block. -/
def sha256Schedule (block : List Nat) : Array Nat :=
  let ws0 := bytesToWords block
  (List.range 64).foldl
    (fun a t =>
      if t < 16 then a.push (ws0.getD t 0)
      else
        let s0 := rotr32 7 (a.getD (t - 15) 0) ^^^ rotr32 18 (a.getD (t - 15) 0) ^^^ (a.getD (t - 15) 0 >>> 3)
        let s1 := rotr32 17 (a.getD (t - 2) 0) ^^^ rotr32 19 (a.getD (t - 2) 0) ^^^ (a.getD (t - 2) 0 >>> 10)
        a.push (w32 (a.getD (t - 16) 0 + s0 + a.getD (t - 7) 0 + s1)))
    #[]

/-- SHA-256 compression of one 64-byte block into the 8-word state. -/
def sha256Compress (h : List Nat) (block : List Nat) : List Nat :=
  let W := sha256Schedule block
  let step := fun (st : Nat × Nat × Nat × Nat × Nat × Nat × Nat × Nat) (t : Nat) =>
    let (a, b, c, d, e, f, g, hh) := st
    let S1 := rotr32 6 e ^^^ rotr32 11 e ^^^ rotr32 25 e
    let ch := (e &&& f) ^^^ (not32 e &&& g)
    let temp1 := w32 (hh + S1 + ch + sha256K.getD t 0 + W.getD t 0)
    let S0 := rotr32 2 a ^^^ rotr32 13 a ^^^ rotr32 22 a
    let maj := (a &&& b) ^^^ (a &&& c) ^^^ (b &&& c)
    let temp2 := w32 (S0 + maj)
    (w32 (temp1 + temp2), a, b, c, w32 (d + temp1), e, f, g)
  let init := (h.getD 0 0, h.getD 1 0, h.getD 2 0, h.getD 3 0,
               h.getD 4 0, h.getD 5 0, h.getD 6 0, h.getD 7 0)
  let (a, b, c, d, e, f, g, hh) := (List.range 64).foldl step init
  [w32 (h.getD 0 0 + a), w32 (h.getD 1 0 + b), w32 (h.getD 2 0 + c), w32 (h.getD 3 0 + d),
   w32 (h.getD 4 0 + e), w32 (h.getD 5 0 + f), w32 (h.getD 6 0 + g), w32 (h.getD 7 0 + hh)]

/-- SHA-256 padding: append `0x80`, zero fill to 56 mod 64, then the
    bit length as 8 big-endian bytes. -/
def sha256Pad (msg : List Nat) : List Nat :=
  let L := msg.length
  let padLen := (64 - (L + 9) % 64) % 64
  let bitLen := L * 8
  msg ++ [128] ++ List.replicate padLen 0 ++
    [bitLen / 72057594037927936 % 256, bitLen / 281474976710656 % 256,
     bitLen / 1099511627776 % 256, bitLen / 4294967296 % 256,
     bitLen / 16777216 % 256, bitLen / 65536 % 256, bitLen / 256 % 256, bitLen % 256]

/-- Split a byte list into 64-byte blocks. -/
def blocks64 : List Nat → List (List Nat)
  | [] => []
  | c :: rest => (c :: rest).take 64 :: blocks64 ((c :: rest).drop 64)
termination_by l => l.length
decreasing_by
  simp only [List.length_drop, List.length_cons]
  omega

/-- SHA-256 digest of a byte list, as 32 bytes. -/
def sha256 (msg : List Nat) : List Nat :=
  ((blocks64 (sha256Pad msg)).foldl sha256Compress sha256H0).map wordToBytes |>.flatten

/-- HMAC-SHA256 (RFC 2104) over byte lists, as 32 bytes. -/
def hmacSha256 (key msg : List Nat) : List Nat :=
  let k0 := if 64 < key.length then sha256 key else key
  let k := k0 ++ List.replicate (64 - k0.length) 0
  let ipad := k.map (fun b => b ^^^ 54)
  let opad := k.map (fun b => b ^^^ 92)
  sha256 (opad ++ sha256 (ipad ++ msg))

/-! ### The signed request engine (`bot/client.py`) -/

/-- `BinanceFuturesClient._sign` (client.py lines 109 to 125): hex-encoded
    HMAC-SHA256 of the urlencoded parameter map, keyed by the UTF-8 bytes
    of the secret key. -/
def clientSign (secret : String) (params : List (String × String)) : String :=
  hexStr (hmacSha256 (utf8Bytes secret) (utf8Bytes (urlencode params)))

/-- A request as assembled by `BinanceFuturesClient._request` before
    dispatch: method, path, insertion-ordered parameters, and whether the
    call is signed (the `signed` argument defaults to true in the source). -/
structure Request where
  method : String
  path : String
  params : List (String × String)
  signed : Bool
deriving DecidableEq, Repr

/-- The parameter map sent on the wire for a signed call (client.py lines
    149 to 151): append `timestamp`, then append the signature of
    everything appended so far. -/
def signedWireParams (secret : String) (ts : Int) (params : List (String × String)) :
    List (String × String) :=
  let withTs := params ++ [("timestamp", toString ts)]
  withTs ++ [("signature", clientSign secret withTs)]

/-- The parameter map `_request` actually sends: the signed transformation
    when `signed` is set, the raw parameters otherwise. -/
def requestWire (secret : String) (ts : Int) (r : Request) : List (String × String) :=
  if r.signed then signedWireParams secret ts r.params else r.params

/-- First-match association lookup on a parameter list (dict lookup for the
    maps built here, whose keys are distinct). -/
def lookupKV (k : String) : List (String × String) → Option String
  | [] => Option.none
  | (k2, v) :: rest => if k = k2 then some v else lookupKV k rest

/-- Remove every binding of a key from a parameter list. -/
def removeKey (k : String) (l : List (String × String)) : List (String × String) :=
  l.filter (fun kv => kv.1 ≠ k)

/-! ### Endpoint request constructors (`bot/client.py`)

Each definition produces the `Request` value that the corresponding client
method hands to `_request`; `signed` is true exactly when the source either
passes `signed=True` or relies on the default. -/

/-- `place_order` (client.py lines 250 to 287): uppercase symbol, side and
    type, stringify the quantity, then append the non-`None` keyword
    arguments stringified, and POST signed. -/
def place_order_request (symbol side order_type : String) (quantity : PyFloat)
    (kwargs : List (String × PyArg)) : Request :=
  { method := "POST", path := "/fapi/v1/order",
    params :=
      [("symbol", pyUpper symbol), ("side", pyUpper side),
       ("type", pyUpper order_type), ("quantity", pyFloatStr quantity)] ++
      kwargs.filterMap (fun kv =>
        match kv.2 with
        | PyArg.none => Option.none
        | a => some (kv.1, pyArgStr a)),
    signed := true }

/-- `get_open_orders` (client.py lines 289 to 304): signed GET with an
    optional uppercased symbol filter. -/
def get_open_orders_request (symbol : Option String) : Request :=
  { method := "GET", path := "/fapi/v1/openOrders",
    params := match symbol with
      | some s => [("symbol", pyUpper s)]
      | Option.none => [],
    signed := true }

/-- `cancel_order` (client.py lines 306 to 323): signed DELETE with the
    uppercased symbol and the integer order id. -/
def cancel_order_request (symbol : String) (order_id : Int) : Request :=
  { method := "DELETE", path := "/fapi/v1/order",
    params := [("symbol", pyUpper symbol), ("orderId", toString order_id)],
    signed := true }

/-- `cancel_all_orders` (client.py lines 325 to 338): signed DELETE. -/
def cancel_all_orders_request (symbol : String) : Request :=
  { method := "DELETE", path := "/fapi/v1/allOpenOrders",
    params := [("symbol", pyUpper symbol)], signed := true }

/-- `get_balance` (client.py lines 194 to 202): signed GET, no parameters. -/
def get_balance_request : Request :=
  { method := "GET", path := "/fapi/v2/balance", params := [], signed := true }

/-- `get_account` (client.py lines 204 to 212): signed GET, no parameters. -/
def get_account_request : Request :=
  { method := "GET", path := "/fapi/v2/account", params := [], signed := true }

/-- `get_price` (client.py lines 216 to 231): unsigned GET with the symbol
    passed through verbatim (`signed=False` in the source). -/
def get_price_request (symbol : String) : Request :=
  { method := "GET", path := "/fapi/v1/ticker/price",
    params := [("symbol", symbol)], signed := false }

/-- `get_exchange_info` (client.py lines 233 to 246): unsigned GET with an
    optional symbol (`signed=False` in the source). -/
def get_exchange_info_request (symbol : Option String) : Request :=
  { method := "GET", path := "/fapi/v1/exchangeInfo",
    params := match symbol with
      | some s => [("symbol", s)]
      | Option.none => [],
    signed := false }

/-! ### Response interpretation (`bot/client.py` lines 171 to 180) -/

/-- JSON values that can sit under the `code` or `msg` key of a parsed
    response body: integers, strings, or any other JSON value (`null`,
    arrays, objects). Integral JSON numbers parse to Python ints. -/
inductive JVal where
  | jint (n : Int)
  | jstr (s : String)
  | jother
deriving DecidableEq, Repr

/-- A parsed JSON response body: a JSON object (dict) with its fields in
    order, or any non-object body (list, number, string, ...). -/
inductive JBody where
  | jdict (fields : List (String × JVal))
  | jnondict
deriving DecidableEq, Repr

/-- First-match field lookup in a JSON object. -/
def jLookup (k : String) : List (String × JVal) → Option JVal
  | [] => Option.none
  | (k2, v) :: rest => if k = k2 then some v else jLookup k rest

/-- Errors surfaced by the response check: `BinanceAPIError(code, msg)`
    with the venue code and the `msg` field (default `"Unknown error"`),
    or the Python `TypeError` raised by `data["code"] < 0` when the code
    value is a string, `null`, a list or an object. -/
inductive RespError where
  | apiError (code : Int) (msg : JVal)
  | typeError
deriving DecidableEq, Repr

/-- The `msg` retrieval `data.get("msg", "Unknown error")`. -/
def responseMsg (fields : List (String × JVal)) : JVal :=
  (jLookup "msg" fields).getD (.jstr "Unknown error")

/-- The venue-error check of `_request` (client.py lines 171 to 180),
    applied to the parsed body. The HTTP transport status is taken as an
    argument and ignored, because the source never consults
    `response.status_code`: the check runs on the body alone. -/
def interpretResponse (status : Nat) (data : JBody) : Except RespError JBody :=
  match status, data with
  | _, .jdict fields =>
    match jLookup "code" fields with
    | some (.jint c) =>
      if c ≠ 200 then
        if c < 0 || (0 < c && c ≠ 200) then .error (.apiError c (responseMsg fields))
        else .ok data
      else .ok data
    | some _ => .error .typeError
    | Option.none => .ok data
  | _, .jnondict => .ok data

/-- True when the `code` field of the body, if present, is an integer —
    the shape every venue response has. -/
def codeWellTyped : JBody → Bool
  | .jdict fields =>
    match jLookup "code" fields with
    | some (.jint _) => true
    | some _ => false
    | Option.none => true
  | .jnondict => true

/-! ### Order strategies and order management (`bot/orders.py`) -/

/-- `StopLimitOrder.execute` up to the wire parameters (orders.py lines 141
    to 169 with client.py `place_order`): validate with the fixed
    `STOP_LIMIT` tag, project the validated record through `build_params`
    (`order_type` becomes the venue name `"STOP"`, `price` the validated
    limit price, `stopPrice` the validated stop price, `timeInForce`
    `"GTC"`), and assemble the `place_order` request. The `Option.none`
    result models the `KeyError` a missing validated price would raise in
    `build_params`; it is proved unreachable. -/
def stopLimitExecuteRequest (symbol side quantity stop_price limit_price : PyVal) :
    Except VErr (Option Request) :=
  match validate_order_params symbol side (.str "STOP_LIMIT") quantity limit_price stop_price with
  | .error e => .error e
  | .ok (v, _) =>
    match v.price, v.stop_price with
    | some p, some sp =>
      .ok (some (place_order_request v.symbol v.side "STOP" v.quantity
        [("price", .farg p), ("stopPrice", .farg sp), ("timeInForce", .sarg "GTC")]))
    | _, _ => .ok Option.none

/-- Exceptions the Python builtin `int(x)` can raise on the embedded
    values. -/
inductive PyExc where
  | valueError
  | typeError
  | overflowError
deriving DecidableEq, Repr

/-- Truncation toward zero of a rational, as `int(float)` does: the integer
    quotient of the magnitude, signed. -/
def pyTrunc (q : ℚ) : Int :=
  if q < 0 then -((q.num.natAbs / q.den : Nat) : Int) else ((q.num.natAbs / q.den : Nat) : Int)

/-- Parse a Python integer literal: optional sign and digits, with
    underscores between digits allowed. Surrounding whitespace is stripped
    by `int(str)`. -/
def pyParseInt (s : String) : Option Int :=
  let t := (pyStrip s).data
  let (neg, body) :=
    match t with
    | '+' :: rest => (false, rest)
    | '-' :: rest => (true, rest)
    | rest => (false, rest)
  match parseDigitsU body with
  | some ds => some (if neg then -(digitsToNat ds : Int) else (digitsToNat ds : Int))
  | Option.none => Option.none

/-- Model of the Python builtin `int(x)`: ints pass through, finite floats
    truncate toward zero, `nan` raises `ValueError`, the infinities raise
    `OverflowError`, strings must spell an integer literal (`ValueError`
    otherwise), `None` raises `TypeError`. -/
def pyIntOf : PyVal → Except PyExc Int
  | .int n => .ok n
  | .num (.finite q) => .ok (pyTrunc q)
  | .num .nan => .error .valueError
  | .num .inf => .error .overflowError
  | .num .ninf => .error .overflowError
  | .str s =>
    match pyParseInt s with
    | some n => .ok n
    | Option.none => .error .valueError
  | .none => .error .typeError

/-- Failure modes of the order-management `cancel_order`: a
    `ValidationError` (from symbol validation, or `InvalidInput` for an
    unparsable order id), or an uncaught Python exception (the
    `OverflowError` of `int(inf)` is not in the caught tuple). -/
inductive CancelErr where
  | validation (e : VErr)
  | uncaught (e : PyExc)
deriving DecidableEq, Repr

/-- `cancel_order` of the order-management layer (orders.py lines 266 to
    287): validate the symbol, convert the order id with `int(...)` turning
    `ValueError` and `TypeError` into `InvalidInput`, then delegate to the
    engine (`client.cancel_order`, whose own `int(order_id)` is the
    identity on the already-converted id). -/
def ordersCancelOrder (symbol order_id : PyVal) : Except CancelErr Request :=
  match validate_symbol symbol with
  | .error e => .error (.validation e)
  | .ok s =>
    match pyIntOf order_id with
    | .ok n => .ok (cancel_order_request s n)
    | .error .valueError => .error (.validation (.invalidOrderId order_id))
    | .error .typeError => .error (.validation (.invalidOrderId order_id))
    | .error .overflowError => .error (.uncaught .overflowError)

/-! ### Shared helper instances and lemmas -/

deriving instance DecidableEq for Except

/-- Bind on a successful `Except` computation reduces to the continuation. -/
theorem ebind_ok {ε α β : Type} (a : α) (f : α → Except ε β) :
    (Except.ok a : Except ε α) >>= f = f a := rfl

/-- Bind on a failed `Except` computation propagates the error. -/
theorem ebind_err {ε α β : Type} (e : ε) (f : α → Except ε β) :
    (Except.error e : Except ε α) >>= f = Except.error e := rfl

/-- Lookup passes over a prefix in which the key is absent. -/
theorem lookupKV_append_right (k : String) (l1 l2 : List (String × String))
    (h : lookupKV k l1 = Option.none) : lookupKV k (l1 ++ l2) = lookupKV k l2 := by
  induction l1 with
  | nil => rfl
  | cons kv rest ih =>
    obtain ⟨k2, v⟩ := kv
    by_cases hk : k = k2
    · simp [lookupKV, hk] at h
    · simp only [lookupKV, if_neg hk] at h ⊢
      exact ih h

/-- Removing an absent key is the identity. -/
theorem removeKey_eq_self (k : String) (l : List (String × String))
    (h : lookupKV k l = Option.none) : removeKey k l = l := by
  induction l with
  | nil => rfl
  | cons kv rest ih =>
    obtain ⟨k2, v⟩ := kv
    by_cases hk : k = k2
    · simp [lookupKV, hk] at h
    · simp only [lookupKV, if_neg hk] at h
      have h1 : removeKey k rest = rest := ih h
      have hcond : ((k2, v).1 ≠ k) := fun h2 => hk h2.symm
      simp only [removeKey, List.filter_cons, decide_eq_true_eq] at h1 ⊢
      rw [if_pos hcond, h1]

/-! ### C3 -/

/-- C3: the spec invariant says validated quantity, price and stop price
    are always strictly positive finite numbers, never NaN or infinity.
    The code violates this: `float("nan")` and `float("inf")` parse, and
    the `<= 0` rejection test is false on both, so the validators accept
    and return non-finite values. -/
theorem c3_validators_accept_nonfinite :
    validate_quantity (.str "nan") = .ok PyFloat.nan ∧
    validate_quantity (.str "inf") = .ok PyFloat.inf ∧
    validate_price (.str "nan") = .ok PyFloat.nan ∧
    validate_stop_price (.str "inf") = .ok PyFloat.inf ∧
    isStrictlyPositiveFinite PyFloat.nan = false ∧
    isStrictlyPositiveFinite PyFloat.inf = false := by
  decide

/-! ### C2 -/

/-- Evaluation of the venue-error check when the body is an object whose
    `code` field holds the integer `c0`: the nested conditions of the
    source collapse to the single predicate `c0 different from 0 and 200`. -/
theorem interp_eval (status : Nat) (fields : List (String × JVal)) (c0 : Int)
    (hcode : jLookup "code" fields = some (.jint c0)) :
    interpretResponse status (.jdict fields) =
      if c0 ≠ 0 ∧ c0 ≠ 200 then .error (.apiError c0 (responseMsg fields))
      else .ok (.jdict fields) := by
  by_cases h200 : c0 = 200
  · subst h200
    simp [interpretResponse, hcode]
  · by_cases h0 : c0 = 0
    · subst h0
      simp [interpretResponse, hcode]
    · have hb : (decide (c0 < 0) || (decide (0 < c0) && decide (c0 ≠ 200))) = true := by
        by_cases hneg : c0 < 0
        · simp [hneg]
        · have hpos : 0 < c0 := by omega
          simp [hneg, hpos, h200]
      simp [interpretResponse, hcode, h200, h0, hb]

/-- C2: the request engine raises `ApiError(code, message)` exactly when
    the parsed body is an object whose `code` field holds a nonzero integer
    other than 200, preserving the venue code and the `msg` field
    (defaulting to "Unknown error"); otherwise the body is returned
    verbatim. The HTTP status argument is irrelevant: the source never
    consults it, so the error fires even on transport status 200. -/
theorem c2_api_error_iff (status : Nat) (data : JBody)
    (hwt : codeWellTyped data = true) :
    (∀ c m, interpretResponse status data = .error (.apiError c m) ↔
      ∃ fields, data = .jdict fields ∧ jLookup "code" fields = some (.jint c) ∧
        c ≠ 0 ∧ c ≠ 200 ∧ responseMsg fields = m) ∧
    ((∀ fields c, data = .jdict fields → jLookup "code" fields = some (.jint c) →
        c = 0 ∨ c = 200) →
      interpretResponse status data = .ok data) := by
  cases data with
  | jnondict =>
    refine ⟨fun c m => ⟨fun h => by simp [interpretResponse] at h, ?_⟩, fun _ => rfl⟩
    rintro ⟨fields, hf, -⟩
    exact absurd hf (by simp)
  | jdict fields =>
    cases hcode : jLookup "code" fields with
    | none =>
      refine ⟨fun c m => ⟨fun h => by simp [interpretResponse, hcode] at h, ?_⟩,
        fun _ => by simp [interpretResponse, hcode]⟩
      rintro ⟨fields2, hf, hl, -⟩
      cases hf
      rw [hcode] at hl
      exact absurd hl (by simp)
    | some v =>
      cases v with
      | jint c0 =>
        have heval := interp_eval status fields c0 hcode
        by_cases hc : c0 ≠ 0 ∧ c0 ≠ 200
        · rw [if_pos hc] at heval
          constructor
          · intro c m
            constructor
            · intro h
              rw [heval] at h
              have h2 : c0 = c ∧ responseMsg fields = m := by
                cases h
                exact ⟨rfl, rfl⟩
              exact ⟨fields, rfl, h2.1 ▸ hcode, h2.1 ▸ hc.1, h2.1 ▸ hc.2, h2.2⟩
            · rintro ⟨fields2, hf, hl, hz, h200, hm⟩
              cases hf
              rw [hcode] at hl
              have h2 : c0 = c := by
                cases hl
                rfl
              rw [heval, h2, hm]
          · intro hok
            exact absurd (hok fields c0 rfl hcode) (by omega)
        · rw [if_neg hc] at heval
          have hor : c0 = 0 ∨ c0 = 200 := by
            rcases not_and_or.mp hc with h1 | h2
            · exact Or.inl (by omega)
            · exact Or.inr (by omega)
          constructor
          · intro c m
            constructor
            · intro h
              rw [heval] at h
              exact absurd h (by simp)
            · rintro ⟨fields2, hf, hl, hz, h200, hm⟩
              cases hf
              rw [hcode] at hl
              have h2 : c0 = c := by
                cases hl
                rfl
              subst h2
              exact absurd hor (by omega)
          · intro _
            exact heval
      | jstr s =>
        simp [codeWellTyped, hcode] at hwt
      | jother =>
        simp [codeWellTyped, hcode] at hwt

/-- Witness for C2 at the spec scenario: body
    `{"code": -2019, "msg": "Margin is insufficient."}` raises
    `ApiError(-2019, "Margin is insufficient.")` even at HTTP status 200. -/
theorem c2_api_error_iff_witness :
    interpretResponse 200
        (.jdict [("code", .jint (-2019)), ("msg", .jstr "Margin is insufficient.")]) =
      .error (.apiError (-2019) (.jstr "Margin is insufficient.")) := by
  refine ((c2_api_error_iff 200 _ (by decide)).1 (-2019)
    (.jstr "Margin is insufficient.")).mpr ?_
  exact ⟨_, rfl, by decide, by decide, by decide, by decide⟩

/-! ### C4 -/

/-- C4: for a STOP_LIMIT order with the stop price supplied but the limit
    price omitted, validation fails citing the limit price ("Limit price is
    required for STOP_LIMIT orders."), not the stop price: the presence
    check for `price` runs before the presence check for `stop_price`, and
    each check is independent, so the error names the missing field (the
    second conjunct shows the stop-price message fires whenever `price` is
    present, whether or not it is valid). -/
theorem c4_stop_limit_price_checked_first (symbol side quantity stop_price : PyVal)
    (s sd : String) (q : PyFloat)
    (hs : validate_symbol symbol = .ok s) (hd : validate_side side = .ok sd)
    (hq : validate_quantity quantity = .ok q) :
    validate_order_params symbol side (.str "STOP_LIMIT") quantity .none stop_price
      = .error .limitPriceRequiredForStopLimit ∧
    ∀ price : PyVal, price ≠ .none →
      validate_order_params symbol side (.str "STOP_LIMIT") quantity price .none
        = .error .stopPriceRequiredForStopLimit := by
  have hot : validate_order_type (.str "STOP_LIMIT") = .ok "STOP_LIMIT" := by decide
  constructor
  · simp [validate_order_params, hs, hd, hq, hot, ebind_ok]
  · intro price hp
    cases price with
    | none => exact absurd rfl hp
    | str s2 => simp [validate_order_params, hs, hd, hq, hot, ebind_ok]
    | num x => simp [validate_order_params, hs, hd, hq, hot, ebind_ok]
    | int n => simp [validate_order_params, hs, hd, hq, hot, ebind_ok]

/-- Witness for C4 at the spec scenario values. -/
theorem c4_stop_limit_price_checked_first_witness :
    validate_order_params (.str "BTCUSDT") (.str "SELL") (.str "STOP_LIMIT")
        (.num (.finite (mkRat 1 1))) .none (.num (.finite (mkRat 26000 1)))
      = .error .limitPriceRequiredForStopLimit ∧
    validate_order_params (.str "BTCUSDT") (.str "SELL") (.str "STOP_LIMIT")
        (.num (.finite (mkRat 1 1))) (.num (.finite (mkRat 25900 1))) .none
      = .error .stopPriceRequiredForStopLimit := by
  have h := c4_stop_limit_price_checked_first (.str "BTCUSDT") (.str "SELL")
    (.num (.finite (mkRat 1 1))) (.num (.finite (mkRat 26000 1)))
    "BTCUSDT" "SELL" (.finite (mkRat 1 1)) (by decide) (by decide) (by decide)
  exact ⟨h.1, h.2 (.num (.finite (mkRat 25900 1))) (by decide)⟩

/-! ### C9 -/

/-- C9: for MARKET and LIMIT orders a supplied `stop_price` argument is
    silently ignored: the whole outcome of `validate_order_params` —
    result, error, and logged notices — is identical to the call with
    `stop_price` omitted, whatever value (even invalid) was passed. Only
    the STOP_LIMIT branch reads `stop_price`. -/
theorem c9_stop_price_ignored_for_market_limit
    (symbol side order_type quantity price sp : PyVal) (t : String)
    (ht : validate_order_type order_type = .ok t) (hml : t = "MARKET" ∨ t = "LIMIT") :
    validate_order_params symbol side order_type quantity price sp =
      validate_order_params symbol side order_type quantity price .none := by
  unfold validate_order_params
  cases hsym : validate_symbol symbol with
  | error e => simp [ebind_err]
  | ok s =>
    simp only [ebind_ok]
    cases hside : validate_side side with
    | error e => simp [ebind_err]
    | ok sd =>
      simp only [ebind_ok]
      rw [ht]
      simp only [ebind_ok]
      cases hq : validate_quantity quantity with
      | error e => simp [ebind_err]
      | ok q =>
        simp only [ebind_ok]
        rcases hml with h | h <;> subst h <;> simp

/-- Witness for C9: a LIMIT order with a garbage stop price validates
    exactly as the same call without one. -/
theorem c9_stop_price_ignored_for_market_limit_witness :
    validate_order_params (.str "ETHUSDT") (.str "SELL") (.str "LIMIT")
        (.num (.finite (mkRat 3 2))) (.num (.finite (mkRat 2000 1))) (.str "junk") =
      validate_order_params (.str "ETHUSDT") (.str "SELL") (.str "LIMIT")
        (.num (.finite (mkRat 3 2))) (.num (.finite (mkRat 2000 1))) .none :=
  c9_stop_price_ignored_for_market_limit (.str "ETHUSDT") (.str "SELL") (.str "LIMIT")
    (.num (.finite (mkRat 3 2))) (.num (.finite (mkRat 2000 1))) (.str "junk")
    "LIMIT" (by decide) (Or.inr rfl)

/-! ### C6 -/

/-- C6: a MARKET order that validates returns exactly the four fields
    symbol (uppercased, as produced by `validate_symbol`), side
    (uppercased), order type MARKET and float quantity; the price and stop
    price slots are absent even when a price argument was supplied — a
    supplied price only adds the non-fatal logged notice, never an error.
    The last conjunct is the spec scenario
    `validate_order_params("btcusdt","buy","market",0.002)`. -/
theorem c6_market_validated_fields
    (symbol side order_type quantity price sp : PyVal)
    (v : ValidatedParams) (ws : List LogNotice)
    (ht : validate_order_type order_type = .ok "MARKET")
    (h : validate_order_params symbol side order_type quantity price sp = .ok (v, ws)) :
    validate_symbol symbol = .ok v.symbol ∧ validate_side side = .ok v.side ∧
    v.order_type = "MARKET" ∧ validate_quantity quantity = .ok v.quantity ∧
    v.price = Option.none ∧ v.stop_price = Option.none ∧
    (price = .none → ws = []) ∧ (price ≠ .none → ws = [.marketPriceIgnored]) ∧
    validate_order_params (.str "btcusdt") (.str "buy") (.str "market")
        (.num (.finite (mkRat 1 500))) .none .none =
      .ok ({ symbol := "BTCUSDT", side := "BUY", order_type := "MARKET",
             quantity := .finite (mkRat 1 500) }, []) := by
  unfold validate_order_params at h
  cases hsym : validate_symbol symbol with
  | error e => rw [hsym] at h; simp [ebind_err] at h
  | ok s =>
    rw [hsym] at h
    simp only [ebind_ok] at h
    cases hside : validate_side side with
    | error e => rw [hside] at h; simp [ebind_err] at h
    | ok sd =>
      rw [hside] at h
      simp only [ebind_ok] at h
      rw [ht] at h
      simp only [ebind_ok] at h
      cases hq : validate_quantity quantity with
      | error e => rw [hq] at h; simp [ebind_err] at h
      | ok q =>
        rw [hq] at h
        simp only [ebind_ok] at h
        simp only [show ("MARKET" = "LIMIT") = False by simp,
          show ("MARKET" = "STOP_LIMIT") = False by simp, if_false] at h
        cases price with
        | none =>
          simp only [pure, Except.pure, Except.ok.injEq, Prod.mk.injEq] at h
          obtain ⟨hv, hw⟩ := h
          subst hv
          refine ⟨rfl, rfl, rfl, rfl, rfl, rfl, fun _ => hw.symm, ?_, by decide⟩
          intro hne
          exact absurd rfl hne
        | str s2 =>
          simp only [pure, Except.pure, Except.ok.injEq, Prod.mk.injEq] at h
          obtain ⟨hv, hw⟩ := h
          subst hv
          refine ⟨rfl, rfl, rfl, rfl, rfl, rfl, ?_, fun _ => hw.symm, by decide⟩
          intro hc
          exact absurd hc (by simp)
        | num x =>
          simp only [pure, Except.pure, Except.ok.injEq, Prod.mk.injEq] at h
          obtain ⟨hv, hw⟩ := h
          subst hv
          refine ⟨rfl, rfl, rfl, rfl, rfl, rfl, ?_, fun _ => hw.symm, by decide⟩
          intro hc
          exact absurd hc (by simp)
        | int n =>
          simp only [pure, Except.pure, Except.ok.injEq, Prod.mk.injEq] at h
          obtain ⟨hv, hw⟩ := h
          subst hv
          refine ⟨rfl, rfl, rfl, rfl, rfl, rfl, ?_, fun _ => hw.symm, by decide⟩
          intro hc
          exact absurd hc (by simp)

/-- Witness for C6: the MARKET scenario with a supplied price, showing the
    price never reaches the validated output and only logs a notice. -/
theorem c6_market_validated_fields_witness :
    validate_symbol (.str "btcusdt") =
      .ok ({ symbol := "BTCUSDT", side := "BUY", order_type := "MARKET",
             quantity := PyFloat.finite (mkRat 1 500) } : ValidatedParams).symbol ∧
    validate_side (.str "buy") =
      .ok ({ symbol := "BTCUSDT", side := "BUY", order_type := "MARKET",
             quantity := PyFloat.finite (mkRat 1 500) } : ValidatedParams).side ∧
    ({ symbol := "BTCUSDT", side := "BUY", order_type := "MARKET",
       quantity := PyFloat.finite (mkRat 1 500) } : ValidatedParams).order_type = "MARKET" ∧
    validate_quantity (.num (.finite (mkRat 1 500))) =
      .ok ({ symbol := "BTCUSDT", side := "BUY", order_type := "MARKET",
             quantity := PyFloat.finite (mkRat 1 500) } : ValidatedParams).quantity ∧
    ({ symbol := "BTCUSDT", side := "BUY", order_type := "MARKET",
       quantity := PyFloat.finite (mkRat 1 500) } : ValidatedParams).price = Option.none ∧
    ({ symbol := "BTCUSDT", side := "BUY", order_type := "MARKET",
       quantity := PyFloat.finite (mkRat 1 500) } : ValidatedParams).stop_price = Option.none ∧
    ((.num (.finite (mkRat 3 1)) : PyVal) = .none → [LogNotice.marketPriceIgnored] = []) ∧
    ((.num (.finite (mkRat 3 1)) : PyVal) ≠ .none →
      [LogNotice.marketPriceIgnored] = [LogNotice.marketPriceIgnored]) ∧
    validate_order_params (.str "btcusdt") (.str "buy") (.str "market")
        (.num (.finite (mkRat 1 500))) .none .none =
      .ok ({ symbol := "BTCUSDT", side := "BUY", order_type := "MARKET",
             quantity := .finite (mkRat 1 500) }, []) :=
  c6_market_validated_fields (.str "btcusdt") (.str "buy") (.str "market")
    (.num (.finite (mkRat 1 500))) (.num (.finite (mkRat 3 1))) .none
    { symbol := "BTCUSDT", side := "BUY", order_type := "MARKET",
      quantity := PyFloat.finite (mkRat 1 500) }
    [LogNotice.marketPriceIgnored] (by decide) (by decide)

/-! ### C10 -/

/-- C10: in the order-management layer, `cancel_order` raises the
    `InvalidInput` message exactly when the integer conversion of the order
    id raises a caught exception (`ValueError`, as for "5.5", or
    `TypeError`, as for `None`); a fractional float id such as 5.9 is not
    rejected but truncated toward zero to 5 and delegated to the engine
    with the truncated id. -/
theorem c10_cancel_order_int_conversion (symbol order_id : PyVal) (s : String)
    (hs : validate_symbol symbol = .ok s) :
    (ordersCancelOrder symbol order_id = .error (.validation (.invalidOrderId order_id)) ↔
      (pyIntOf order_id = .error .valueError ∨ pyIntOf order_id = .error .typeError)) ∧
    (∀ n : Int, pyIntOf order_id = .ok n →
      ordersCancelOrder symbol order_id = .ok (cancel_order_request s n)) ∧
    pyIntOf PyVal.none = .error .typeError ∧
    pyIntOf (.str "5.5") = .error .valueError ∧
    pyIntOf (.num (.finite (mkRat 59 10))) = .ok 5 ∧
    ordersCancelOrder (.str "BTCUSDT") (.num (.finite (mkRat 59 10))) =
      .ok (cancel_order_request "BTCUSDT" 5) := by
  refine ⟨?_, ?_, by decide, by decide, by decide, by decide⟩
  · cases hI : pyIntOf order_id with
    | ok n => simp [ordersCancelOrder, hs, hI]
    | error e => cases e <;> simp [ordersCancelOrder, hs, hI]
  · intro n hI
    simp [ordersCancelOrder, hs, hI]

/-- Witness for C10 at the 5.9 scenario and the `None` failing example. -/
theorem c10_cancel_order_int_conversion_witness :
    (ordersCancelOrder (.str "BTCUSDT") PyVal.none =
        .error (.validation (.invalidOrderId PyVal.none)) ↔
      (pyIntOf PyVal.none = .error .valueError ∨ pyIntOf PyVal.none = .error .typeError)) ∧
    (∀ n : Int, pyIntOf PyVal.none = .ok n →
      ordersCancelOrder (.str "BTCUSDT") PyVal.none = .ok (cancel_order_request "BTCUSDT" n)) ∧
    pyIntOf PyVal.none = .error .typeError ∧
    pyIntOf (.str "5.5") = .error .valueError ∧
    pyIntOf (.num (.finite (mkRat 59 10))) = .ok 5 ∧
    ordersCancelOrder (.str "BTCUSDT") (.num (.finite (mkRat 59 10))) =
      .ok (cancel_order_request "BTCUSDT" 5) :=
  c10_cancel_order_int_conversion (.str "BTCUSDT") PyVal.none "BTCUSDT" (by decide)

/-! ### C7 -/

/-- C7: a request is signed exactly when it mutates venue state or reads
    private account data. The order calls (`place_order`, `cancel_order`,
    `cancel_all_orders`), `get_open_orders`, `get_balance` and
    `get_account` all carry `signed = true`; the public market-data reads
    `get_price` and `get_exchange_info` carry `signed = false`. A signed
    request gets `timestamp` and `signature` appended by `_request`; an
    unsigned one is sent with its raw parameters, and the two public
    endpoints carry neither a `timestamp` nor a `signature` key. -/
theorem c7_signed_iff_private :
    (∀ sym side ot q kw, (place_order_request sym side ot q kw).signed = true) ∧
    (∀ sym oid, (cancel_order_request sym oid).signed = true) ∧
    (∀ sym, (cancel_all_orders_request sym).signed = true) ∧
    (∀ sym, (get_open_orders_request sym).signed = true) ∧
    get_balance_request.signed = true ∧
    get_account_request.signed = true ∧
    (∀ sym, (get_price_request sym).signed = false) ∧
    (∀ sym, (get_exchange_info_request sym).signed = false) ∧
    (∀ secret ts r, requestWire secret ts r =
      if r.signed then
        r.params ++ [("timestamp", toString ts),
          ("signature", clientSign secret (r.params ++ [("timestamp", toString ts)]))]
      else r.params) ∧
    (∀ secret ts sym,
      lookupKV "timestamp" (requestWire secret ts (get_price_request sym)) = Option.none ∧
      lookupKV "signature" (requestWire secret ts (get_price_request sym)) = Option.none) ∧
    (∀ secret ts sym,
      lookupKV "timestamp" (requestWire secret ts (get_exchange_info_request sym)) = Option.none ∧
      lookupKV "signature" (requestWire secret ts (get_exchange_info_request sym)) = Option.none) := by
  refine ⟨fun _ _ _ _ _ => rfl, fun _ _ => rfl, fun _ => rfl, fun _ => rfl, rfl, rfl,
    fun _ => rfl, fun _ => rfl, ?_, ?_, ?_⟩
  · intro secret ts r
    by_cases hr : r.signed
    · simp [requestWire, signedWireParams, hr]
    · simp [requestWire, hr]
  · intro secret ts sym
    constructor <;> simp [requestWire, get_price_request, lookupKV]
  · intro secret ts sym
    cases sym with
    | none => constructor <;> simp [requestWire, get_exchange_info_request, lookupKV]
    | some s => constructor <;> simp [requestWire, get_exchange_info_request, lookupKV]

/-! ### C1 -/

/-- Lookup finds a key already bound in the prefix. -/
theorem lookupKV_append_left (k : String) (l1 l2 : List (String × String)) (v : String)
    (h : lookupKV k l1 = some v) : lookupKV k (l1 ++ l2) = some v := by
  induction l1 with
  | nil => simp [lookupKV] at h
  | cons kv rest ih =>
    obtain ⟨k2, w⟩ := kv
    by_cases hk : k = k2
    · simp only [lookupKV, if_pos hk] at h ⊢
      exact h
    · simp only [lookupKV, if_neg hk] at h ⊢
      exact ih h

/-- Key removal distributes over append. -/
theorem removeKey_append (k : String) (l1 l2 : List (String × String)) :
    removeKey k (l1 ++ l2) = removeKey k l1 ++ removeKey k l2 := by
  simp [removeKey, List.filter_append]

/-- C1: for every signed request, the attached `signature` parameter is
    the lowercase hex HMAC-SHA256, keyed by the UTF-8 secret key, of the
    urlencoded query string of exactly the parameters sent in insertion
    order — the original parameters followed by `timestamp` — and excluding
    the signature itself; and for a fixed secret and parameter map
    (timestamp included) the computed signature is deterministic. -/
theorem c1_signature_covers_params (secret : String) (ts : Int)
    (params : List (String × String))
    (hsig : lookupKV "signature" params = Option.none)
    (hts : lookupKV "timestamp" params = Option.none) :
    lookupKV "signature" (signedWireParams secret ts params) =
      some (hexStr (hmacSha256 (utf8Bytes secret)
        (utf8Bytes (urlencode (removeKey "signature" (signedWireParams secret ts params)))))) ∧
    removeKey "signature" (signedWireParams secret ts params) =
      params ++ [("timestamp", toString ts)] ∧
    lookupKV "timestamp" (signedWireParams secret ts params) = some (toString ts) ∧
    (∀ secret2 params2, secret2 = secret →
      params2 = params ++ [("timestamp", toString ts)] →
      clientSign secret2 params2 =
        hexStr (hmacSha256 (utf8Bytes secret)
          (utf8Bytes (urlencode (params ++ [("timestamp", toString ts)]))))) := by
  have hcov : lookupKV "signature" (params ++ [("timestamp", toString ts)]) = Option.none := by
    rw [lookupKV_append_right _ _ _ hsig]
    rfl
  have hrem : removeKey "signature" (signedWireParams secret ts params) =
      params ++ [("timestamp", toString ts)] := by
    unfold signedWireParams
    rw [removeKey_append, removeKey_eq_self _ _ hcov]
    have h2 : removeKey "signature"
        [("signature", clientSign secret (params ++ [("timestamp", toString ts)]))] = [] := rfl
    rw [h2, List.append_nil]
  refine ⟨?_, hrem, ?_, ?_⟩
  · rw [hrem]
    unfold signedWireParams
    rw [lookupKV_append_right _ _ _ hcov]
    rfl
  · unfold signedWireParams
    have h1 : lookupKV "timestamp" (params ++ [("timestamp", toString ts)]) =
        some (toString ts) := by
      rw [lookupKV_append_right _ _ _ hts]
      rfl
    exact lookupKV_append_left _ _ _ _ h1
  · intro secret2 params2 h2 h3
    subst h2
    subst h3
    rfl

/-- Witness for C1 on a concrete signed market order parameter map. -/
theorem c1_signature_covers_params_witness :
    lookupKV "signature"
        (signedWireParams "testsecret" 1700000000000
          [("symbol", "BTCUSDT"), ("side", "BUY"), ("type", "MARKET"), ("quantity", "0.002")]) =
      some (hexStr (hmacSha256 (utf8Bytes "testsecret")
        (utf8Bytes (urlencode (removeKey "signature"
          (signedWireParams "testsecret" 1700000000000
            [("symbol", "BTCUSDT"), ("side", "BUY"), ("type", "MARKET"), ("quantity", "0.002")])))))) ∧
    removeKey "signature"
        (signedWireParams "testsecret" 1700000000000
          [("symbol", "BTCUSDT"), ("side", "BUY"), ("type", "MARKET"), ("quantity", "0.002")]) =
      [("symbol", "BTCUSDT"), ("side", "BUY"), ("type", "MARKET"), ("quantity", "0.002")] ++
        [("timestamp", toString (1700000000000 : Int))] ∧
    lookupKV "timestamp"
        (signedWireParams "testsecret" 1700000000000
          [("symbol", "BTCUSDT"), ("side", "BUY"), ("type", "MARKET"), ("quantity", "0.002")]) =
      some (toString (1700000000000 : Int)) ∧
    (∀ secret2 params2, secret2 = "testsecret" →
      params2 = [("symbol", "BTCUSDT"), ("side", "BUY"), ("type", "MARKET"), ("quantity", "0.002")] ++
        [("timestamp", toString (1700000000000 : Int))] →
      clientSign secret2 params2 =
        hexStr (hmacSha256 (utf8Bytes "testsecret")
          (utf8Bytes (urlencode ([("symbol", "BTCUSDT"), ("side", "BUY"), ("type", "MARKET"),
            ("quantity", "0.002")] ++ [("timestamp", toString (1700000000000 : Int))]))))) :=
  c1_signature_covers_params "testsecret" 1700000000000
    [("symbol", "BTCUSDT"), ("side", "BUY"), ("type", "MARKET"), ("quantity", "0.002")]
    (by decide) (by decide)

/-! ### C5 -/

/-- A successful STOP_LIMIT validation yields a record carrying the
    validated limit and stop prices, the STOP_LIMIT tag, and the outputs of
    the individual field validators. -/
theorem vop_stop_limit_ok (symbol side quantity price stop_price : PyVal)
    (v : ValidatedParams) (ws : List LogNotice)
    (h : validate_order_params symbol side (.str "STOP_LIMIT") quantity price stop_price
      = .ok (v, ws)) :
    ∃ p sp, validate_price price = .ok p ∧ validate_stop_price stop_price = .ok sp ∧
      v.price = some p ∧ v.stop_price = some sp ∧ v.order_type = "STOP_LIMIT" ∧
      validate_symbol symbol = .ok v.symbol ∧ validate_side side = .ok v.side ∧
      validate_quantity quantity = .ok v.quantity := by
  unfold validate_order_params at h
  cases hsym : validate_symbol symbol with
  | error e => rw [hsym] at h; simp [ebind_err] at h
  | ok s =>
    rw [hsym] at h
    simp only [ebind_ok] at h
    cases hside : validate_side side with
    | error e => rw [hside] at h; simp [ebind_err] at h
    | ok sd =>
      rw [hside] at h
      simp only [ebind_ok] at h
      have hot : validate_order_type (.str "STOP_LIMIT") = .ok "STOP_LIMIT" := by decide
      rw [hot] at h
      simp only [ebind_ok] at h
      simp only [show ("STOP_LIMIT" = "LIMIT") = False by simp, if_false,
        show ("STOP_LIMIT" = "STOP_LIMIT") = True by simp, if_true] at h
      cases hq : validate_quantity quantity with
      | error e => rw [hq] at h; simp [ebind_err] at h
      | ok q =>
        rw [hq] at h
        simp only [ebind_ok] at h
        split at h
        · simp at h
        · split at h
          · simp at h
          · cases hp : validate_price price with
            | error e => rw [hp] at h; simp [ebind_err] at h
            | ok p =>
              rw [hp] at h
              simp only [ebind_ok] at h
              cases hsp : validate_stop_price stop_price with
              | error e => rw [hsp] at h; simp [ebind_err] at h
              | ok sp =>
                rw [hsp] at h
                simp only [ebind_ok] at h
                simp only [pure, Except.pure, Except.ok.injEq, Prod.mk.injEq] at h
                obtain ⟨hv, hw⟩ := h
                subst hv
                exact ⟨p, sp, rfl, rfl, rfl, rfl, rfl, rfl, rfl, rfl⟩

/-- C5: executing a StopLimitOrder sends wire parameters whose order type
    is the venue name "STOP" (not "STOP_LIMIT"), with `price` set to the
    stringified validated limit price, `stopPrice` to the stringified
    validated stop price, and `timeInForce` "GTC", as a signed POST to the
    order endpoint; the KeyError fallback of `build_params` is unreachable
    on every successful path. -/
theorem c5_stop_limit_wire (symbol side quantity stop_price limit_price : PyVal)
    (r : Option Request)
    (h : stopLimitExecuteRequest symbol side quantity stop_price limit_price = .ok r) :
    ∃ req p sp, r = some req ∧
      validate_price limit_price = .ok p ∧ validate_stop_price stop_price = .ok sp ∧
      lookupKV "type" req.params = some "STOP" ∧
      lookupKV "price" req.params = some (pyFloatStr p) ∧
      lookupKV "stopPrice" req.params = some (pyFloatStr sp) ∧
      lookupKV "timeInForce" req.params = some "GTC" ∧
      req.method = "POST" ∧ req.path = "/fapi/v1/order" ∧ req.signed = true := by
  unfold stopLimitExecuteRequest at h
  cases hvop : validate_order_params symbol side (.str "STOP_LIMIT") quantity
      limit_price stop_price with
  | error e => rw [hvop] at h; simp at h
  | ok pr =>
    obtain ⟨v, ws⟩ := pr
    rw [hvop] at h
    obtain ⟨p, sp, hp, hsp, hvp, hvsp, -, -, -, -⟩ :=
      vop_stop_limit_ok _ _ _ _ _ _ _ hvop
    dsimp only at h
    rw [hvp, hvsp] at h
    dsimp only at h
    injection h with h2
    subst h2
    refine ⟨_, p, sp, rfl, hp, hsp, ?_, ?_, ?_, ?_, rfl, rfl, rfl⟩ <;>
      simp [place_order_request, lookupKV, pyArgStr, pyUpper, pyUpperChar]

/-- The wire request of the spec scenario: stop 26000, limit 25900. -/
def stopLimitScenarioRequest : Request :=
  { method := "POST", path := "/fapi/v1/order",
    params := [("symbol", "BTCUSDT"), ("side", "SELL"), ("type", "STOP"), ("quantity", "1.0"),
               ("price", "25900.0"), ("stopPrice", "26000.0"), ("timeInForce", "GTC")],
    signed := true }

/-- Witness for C5 at the spec scenario: stop price 26000 and limit price
    25900 produce type STOP, stopPrice 26000.0, price 25900.0 and
    timeInForce GTC. -/
theorem c5_stop_limit_wire_witness :
    ∃ req p sp, (some stopLimitScenarioRequest : Option Request) = some req ∧
      validate_price (.num (.finite (mkRat 25900 1))) = .ok p ∧
      validate_stop_price (.num (.finite (mkRat 26000 1))) = .ok sp ∧
      lookupKV "type" req.params = some "STOP" ∧
      lookupKV "price" req.params = some (pyFloatStr p) ∧
      lookupKV "stopPrice" req.params = some (pyFloatStr sp) ∧
      lookupKV "timeInForce" req.params = some "GTC" ∧
      req.method = "POST" ∧ req.path = "/fapi/v1/order" ∧ req.signed = true :=
  c5_stop_limit_wire (.str "BTCUSDT") (.str "SELL") (.num (.finite (mkRat 1 1)))
    (.num (.finite (mkRat 26000 1))) (.num (.finite (mkRat 25900 1)))
    (some stopLimitScenarioRequest) (by decide)

/-! ### C8 -/

